import Mathlib

/-!
Verification development for the aitrade trading bot.

The Python source is shallowly embedded: pure functions become Lean functions
over ℚ or ℝ, the stateful trade executor becomes explicit state passing, and
calls to external collaborators (the exchange, the advisory model, the JSON
decoder) become oracle parameters.  Raised exceptions are modelled by Except
values or an explicit raised flag, since Python object state persists across a
raise.
-/

namespace AiTrade

/-- A parsed advisory record: one JSON object as decoded by the response
parser.  Fields are optional because a decoded dict may lack any key; a
missing key reads as `none` (Python dict lookups then fall back to a default
or raise KeyError, both modelled at the use sites). -/
structure ParsedSignal where
  action : Option String
  confidence : Option ℚ
  reason : Option String
  stop_loss_pct : Option ℚ
  take_profit_pct : Option ℚ
  expected_risk_reward : Option ℚ
  validity_period_hours : Option ℚ
deriving DecidableEq

/-- The action whitelist used by both validation routines. -/
def validActions : List String := ["buy", "sell", "hold"]

/-- Index of the first occurrence of a character, Python str.find (None for -1). -/
def findChar (c : Char) : List Char → Option Nat
  | [] => none
  | x :: xs => if x = c then some 0 else (findChar c xs).map (· + 1)

/-- Index of the last occurrence of a character, Python str.rfind (None for -1). -/
def rfindChar (c : Char) (s : List Char) : Option Nat :=
  (findChar c s.reverse).map (fun i => s.length - 1 - i)

/-- Lines 33-37 of response_parser.py: the slice from the first opening brace
to one past the last closing brace, provided that span is nonempty. -/
def extractJson (s : List Char) : Option (List Char) :=
  match findChar '\x7b' s, rfindChar '\x7d' s with
  | some i, some j => if i < j + 1 then some ((s.drop i).take (j + 1 - i)) else none
  | some _, none => none
  | none, _ => none

/-- Lines 44-53 of response_parser.py: the record used when the response holds
no JSON block. -/
def textFallbackSignal : ParsedSignal :=
  ⟨some ("hold"), some (1/2), some ("从文本响应中解析"), some (1/20), some (1/10),
   some 2, some 4⟩

/-- Lines 60-82 of response_parser.py: the record returned when decoding
raises; the JSONDecodeError handler and the catch-all handler build the same
record. -/
def decodeErrorSignal : ParsedSignal :=
  ⟨some ("hold"), some (1/2), some ("解析响应时出错"), some (1/20), some (1/10),
   some 2, some 4⟩

/-- Lines 152-161 of signal_generator.py, SignalGenerator._get_default_signal:
the fixed fallback signal (hold, confidence 0.3). -/
def default_signal : ParsedSignal :=
  ⟨some ("hold"), some (3/10), some ("系统备用信号：数据不足或分析异常"), some (1/20),
   some (1/10), some 2, some 1⟩

/-- ResponseParser.parse_response (lines 15-82), with json.loads abstracted as
a decoder oracle; a `none` decode models a raised JSONDecodeError or any other
decoding exception, both of which the function catches itself. -/
def parse_response (decode : List Char → Option ParsedSignal) (text : List Char) :
    ParsedSignal :=
  match extractJson text with
  | some js =>
    match decode js with
    | some signal => signal
    | none => decodeErrorSignal
  | none => textFallbackSignal

/-- ResponseParser.validate_signal (lines 84-117): boolean well-formedness
check; action defaults to the empty string and confidence to 0 when absent. -/
def validate_signal_ok (r : ParsedSignal) : Bool :=
  decide (r.action.getD ("") ∈ validActions) &&
    decide (0 ≤ r.confidence.getD 0 ∧ r.confidence.getD 0 ≤ 1)

/-- Lines 92-107 of signal_generator.py: a record failing validation is
replaced wholesale by the default signal; afterwards line 100 formats
signal["confidence"], so a record that passed validation without a confidence
key raises KeyError there, which the surrounding handler also turns into the
default signal. -/
def finalize_signal (r : ParsedSignal) : ParsedSignal :=
  let s := if validate_signal_ok r then r else default_signal
  match s.confidence with
  | none => default_signal
  | some _ => s

/-- Outcome of the advisory call inside SignalGenerator.get_ai_signal: the raw
response text on success, or error for a raised transport failure or timeout.
The error case also covers exceptions raised by the technical-analysis,
market-context and prompt-building steps (steps 1-4 feed only the advisory
prompt, so on success their output is absorbed into the oracle response). -/
inductive AdvisoryOutcome where
  | ok (raw : List Char)
  | error
deriving DecidableEq

/-- SignalGenerator.get_ai_signal (signal_generator.py lines 52-107). -/
def get_ai_signal (decode : List Char → Option ParsedSignal)
    (outcome : AdvisoryOutcome) : ParsedSignal :=
  match outcome with
  | .error => default_signal
  | .ok raw => finalize_signal (parse_response decode raw)

namespace Legacy

/-- A fully-populated signal dict as handled by gpt_signal.py validate_signal
(which subscripts action, confidence, reason and stop_loss_pct directly). -/
structure SignalRec where
  action : String
  confidence : ℚ
  reason : String
  stop_loss_pct : ℚ
  take_profit_pct : ℚ
  expected_risk_reward : ℚ
  validity_period_hours : ℚ
deriving DecidableEq

/-- The RSI portion of the technical-analysis dict: value, condition and
strength; the free-text details field feeds only logging and prompts and is
not modelled. -/
structure RsiAnalysis where
  value : ℚ
  condition : String
  strength : ℚ
deriving DecidableEq

/-- The field of the technical-analysis dict that validate_signal reads. -/
structure TechAnalysis where
  rsi : RsiAnalysis
deriving DecidableEq

/-- The field of the market-context dict that validate_signal reads. -/
structure MarketContext where
  volatility : String
deriving DecidableEq

/-- Lines 358-363 of gpt_signal.py, the basic-validation block of
validate_signal: coerce an action outside the whitelist to hold, then clamp an
out-of-range confidence to max(0, min(1, confidence)). -/
def validate_basic (signal : SignalRec) : SignalRec :=
  let s1 := if signal.action ∈ validActions then signal
    else { signal with action := "hold" }
  if 0 ≤ s1.confidence ∧ s1.confidence ≤ 1 then s1
  else { s1 with confidence := max 0 (min 1 s1.confidence) }

/-- Lines 365-380 of gpt_signal.py, the RSI-override block of validate_signal:
a buy under severe overbought, or a sell under severe oversold, is forced to
hold with halved confidence and an appended adjustment note. -/
def validate_rsi (signal : SignalRec) (ta : TechAnalysis) : SignalRec :=
  if signal.action = "buy" then
    if ta.rsi.condition = "overbought" ∧ 7/10 < ta.rsi.strength then
      { signal with action := "hold", confidence := signal.confidence * (1/2),
                    reason := signal.reason ++ " | 调整: RSI严重超买，避免买入" }
    else signal
  else if signal.action = "sell" then
    if ta.rsi.condition = "oversold" ∧ 7/10 < ta.rsi.strength then
      { signal with action := "hold", confidence := signal.confidence * (1/2),
                    reason := signal.reason ++ " | 调整: RSI严重超卖，避免卖出" }
    else signal
  else signal

/-- Lines 382-385 of gpt_signal.py, the high-volatility block of
validate_signal: scale confidence by 0.7 and widen the stop to at most 0.10. -/
def validate_volatility (signal : SignalRec) (mc : MarketContext) : SignalRec :=
  if mc.volatility = "high" then
    { signal with confidence := signal.confidence * (7/10),
                  stop_loss_pct := min (signal.stop_loss_pct * (3/2)) (1/10) }
  else signal

/-- gpt_signal.py lines 355-387, validate_signal: the three statement blocks
applied in source order to the mutable signal dict. -/
def validate_signal (signal : SignalRec) (ta : TechAnalysis) (mc : MarketContext) :
    SignalRec :=
  validate_volatility (validate_rsi (validate_basic signal) ta) mc

end Legacy

/-- Clamping into [0,1] as performed by the legacy validate_signal. -/
def clamp01 (c : ℚ) : ℚ := max 0 (min 1 c)

/-- TechnicalAnalyzer.analyze_rsi (technical_analyzer.py lines 44-77); the
same classification appears in gpt_signal.py lines 99-115. -/
def analyze_rsi (rsi_value : ℚ) : Legacy.RsiAnalysis :=
  if rsi_value < 30 then ⟨rsi_value, "oversold", min 1 ((30 - rsi_value) / 30)⟩
  else if 70 < rsi_value then ⟨rsi_value, "overbought", min 1 ((rsi_value - 70) / 30)⟩
  else ⟨rsi_value, "neutral", 1/2⟩

/-- One pass of pandas Series.ewm(span).mean() with the default adjust=True:
running weighted numerator and denominator with decay factor (1 - a). -/
def ewmAux (a : ℚ) : List ℚ → ℚ → ℚ → List ℚ
  | [], _, _ => []
  | x :: xs, num, den =>
    let num2 := x + (1 - a) * num
    let den2 := 1 + (1 - a) * den
    num2 / den2 :: ewmAux a xs num2 den2

/-- pandas Series.ewm(span).mean() where a = 2 / (span + 1). -/
def ewm (a : ℚ) (xs : List ℚ) : List ℚ := ewmAux a xs 0 0

/-- Lines 93-95 of technical_analyzer.py: MACD line = EMA(12) - EMA(26). -/
def macd_line (closes : List ℚ) : List ℚ :=
  List.zipWith (fun x y => x - y) (ewm (2/13) closes) (ewm (2/27) closes)

/-- Line 96: signal line = EMA(9) of the MACD line. -/
def signal_line (closes : List ℚ) : List ℚ := ewm (1/5) (macd_line closes)

/-- Python xs[-1] on a nonempty list, with 0 as the unused default. -/
def lastD (xs : List ℚ) : ℚ := xs.getLastD 0

/-- Python xs[-2] on a list of two or more elements. -/
def prevD (xs : List ℚ) : ℚ := xs.dropLast.getLastD 0

/-- The trend, momentum and crossover fields of the MACD analysis dict; the
free-text details field is not modelled. -/
structure MacdAnalysis where
  trend : String
  momentum : ℚ
  crossover : String
deriving DecidableEq

/-- The 1e-10 division guard used by the momentum computation. -/
def macdEps : ℚ := 1 / 10000000000

/-- TechnicalAnalyzer.analyze_macd (technical_analyzer.py lines 79-137). -/
def analyze_macd (closes : List ℚ) : MacdAnalysis :=
  let line := macd_line closes
  let signal := signal_line closes
  let hist := List.zipWith (fun x y => x - y) line signal
  let trend := if 0 < lastD hist then "bullish" else "bearish"
  let momentum :=
    if 0 < lastD hist then min 1 (lastD hist / (|lastD line| + macdEps))
    else min 1 (|lastD hist| / (|lastD line| + macdEps))
  let crossover :=
    if 2 ≤ line.length ∧ 2 ≤ signal.length then
      if prevD line ≤ prevD signal ∧ lastD signal < lastD line then "golden"
      else if prevD signal ≤ prevD line ∧ lastD line < lastD signal then "death"
      else "none"
    else "none"
  ⟨trend, momentum, crossover⟩

noncomputable section RealModel

open Classical

/-- Embedding of np.mean over real numbers. -/
def npMean (xs : List ℝ) : ℝ := xs.sum / xs.length

/-- Embedding of np.std, the population standard deviation. -/
def npStd (xs : List ℝ) : ℝ :=
  Real.sqrt ((xs.map (fun x => (x - npMean xs) ^ 2)).sum / xs.length)

/-- Python xs[-10:], the last ten elements (the whole list when shorter). -/
def lastTen (xs : List ℝ) : List ℝ := xs.drop (xs.length - 10)

/-- Line 44 of risk_manager.py: realized volatility of the last 10 closes,
np.std(closes[-10:]) / np.mean(closes[-10:]). -/
def volatility10 (closes : List ℝ) : ℝ :=
  npStd (lastTen closes) / npMean (lastTen closes)

/-- The market-data fields read by the risk and execution paths: the dict
entries price, closes and technicals.rsi. -/
structure MarketData where
  price : ℝ
  closes : List ℝ
  rsi : ℝ

/-- RiskManager.risk_management_check (risk_manager.py lines 13-65); the same
function appears in trade/trade.py lines 63-82.  Hold short-circuits before
any market check; then high volatility rejects every action, and the extreme
RSI rules reject buy above 80 and sell below 20. -/
def risk_management_check (data : MarketData) (proposed_action : String) : Bool :=
  if proposed_action = "hold" then true
  else if 1/20 < volatility10 data.closes then false
  else if proposed_action = "buy" ∧ 80 < data.rsi then false
  else if proposed_action = "sell" ∧ data.rsi < 20 then false
  else true

/-- RiskManager.calculate_position_size (risk_manager.py lines 67-104); the
same function appears in trade/trade.py lines 85-89. -/
def calculate_position_size (balance : ℝ) (risk_per_trade : ℝ) (stop_loss_pct : ℝ) : ℝ :=
  let risk_amount := balance * risk_per_trade
  let position_size := risk_amount / stop_loss_pct
  let max_position := balance * (1/10)
  min position_size max_position

/-- The position dict stored by the trade executor. -/
structure Position where
  entry_price : ℝ
  stop_loss : ℝ
  amount : ℝ

/-- The signal dict fields read by the trade executor. -/
structure TradeSignal where
  action : String
  confidence : ℝ
  reason : String
  stop_loss_pct : ℝ
  take_profit_pct : ℝ

/-- An order returned by exchange.create_order. -/
structure Order where
  id : ℕ
  price : ℝ
  amount : ℝ

/-- TradeExecutor._log_trade (lines 144-167): one append-only audit record;
the wall-clock timestamp is external and not modelled. -/
structure TradeLogEntry where
  action : String
  signal : TradeSignal
  order_id : ℕ
  price : ℝ
  amount : ℝ

/-- The log entry built by TradeExecutor._log_trade. -/
def mkLogEntry (signal : TradeSignal) (order : Order) (action : String) : TradeLogEntry :=
  ⟨action, signal, order.id, order.price, order.amount⟩

/-- The exchange collaborator as seen by one executor call: the balance fetch,
the market minimum-amount lookup, and order placement; each call can raise,
modelled as Except. -/
structure Exchange where
  fetchBalance : Except Unit ℝ
  minAmount : Except Unit ℝ
  createOrder : String → ℝ → Except Unit Order

/-- Mutable executor state: the single optional position slot and the
append-only trade log. -/
structure ExecState where
  position : Option Position
  trade_log : List TradeLogEntry

/-- Result of one executor call: the final state, the order requests submitted
to the exchange in order, and whether the call raised to its caller.  Python
object state persists across a raise, so state reflects every mutation made
before the raise. -/
structure ExecResult where
  state : ExecState
  orders : List (String × ℝ)
  raised : Bool

/-- TradeExecutor.execute_trade_with_risk_management (trade_executor.py lines
59-142).  A failed risk check returns with no state change.  The buy branch
never consults the stored position: it sizes from the balance, raises the
amount to the market minimum, places the order and overwrites the position
slot.  The sell branch places the order, appends the log entry and clears the
position; the success log line at 136 then subscripts the cleared position,
raising TypeError, which the handler at 140-142 re-raises, so a completed sell
always leaves with raised set. -/
def execute_trade_with_risk_management (ex : Exchange) (signal : TradeSignal)
    (data : MarketData) (st : ExecState) : ExecResult :=
  if risk_management_check data signal.action = false then ⟨st, [], false⟩
  else
    match ex.fetchBalance with
    | .error _ => ⟨st, [], true⟩
    | .ok usdt_balance =>
      if signal.action = "buy" ∧ 10 < usdt_balance then
        let amount0 :=
          calculate_position_size usdt_balance (1/50) signal.stop_loss_pct / data.price
        match ex.minAmount with
        | .error _ => ⟨st, [], true⟩
        | .ok min_amount =>
          let amount := max amount0 min_amount
          match ex.createOrder ("buy") amount with
          | .error _ => ⟨st, [(("buy"), amount)], true⟩
          | .ok order =>
            ⟨⟨some ⟨data.price, data.price * (1 - signal.stop_loss_pct), amount⟩,
              st.trade_log ++ [mkLogEntry signal order ("BUY_EXECUTED")]⟩,
             [(("buy"), amount)], false⟩
      else
        match st.position with
        | some position =>
          if signal.action = "sell" then
            match ex.createOrder ("sell") position.amount with
            | .error _ => ⟨st, [(("sell"), position.amount)], true⟩
            | .ok order =>
              ⟨⟨none, st.trade_log ++ [mkLogEntry signal order ("SELL_EXECUTED")]⟩,
               [(("sell"), position.amount)], true⟩
          else ⟨st, [], false⟩
        | none => ⟨st, [], false⟩

/-- The synthetic stop-loss signal built by TradingBot._execute_stop_loss
(trading_bot.py lines 192-198). -/
def stop_loss_signal : TradeSignal := ⟨"sell", 1, "止损触发", 0, 0⟩

/-- TradingBot._execute_stop_loss (lines 178-214): run the shared risk-gated
executor on the synthetic signal and catch every exception, so the raised flag
is swallowed and only the state and order effects remain. -/
def execute_stop_loss (ex : Exchange) (data : MarketData) (st : ExecState) :
    ExecState × List (String × ℝ) :=
  let r := execute_trade_with_risk_management ex stop_loss_signal data st
  (r.state, r.orders)

/-- The stop-loss monitoring step of TradingBot.run (lines 160-165): when a
position is held and the snapshot price is at or below its stop, the forced
sell is attempted; otherwise nothing happens. -/
def monitor_stop_loss (ex : Exchange) (data : MarketData) (st : ExecState) :
    ExecState × List (String × ℝ) :=
  match st.position with
  | some position =>
    if data.price ≤ position.stop_loss then execute_stop_loss ex data st
    else (st, [])
  | none => (st, [])

end RealModel

noncomputable section Fixtures

/-- Ten closes, flat at 1 except a final spike to 2: their 10-bar realized
volatility is 3/11, well above the 0.05 gate. -/
def cexCloses : List ℝ := [1, 1, 1, 1, 1, 1, 1, 1, 1, 2]

/-- A snapshot over the spiky closes with a neutral RSI. -/
def cexData : MarketData := ⟨2, cexCloses, 50⟩

/-- A flat snapshot at price 94 with extreme-oversold RSI 10: the risk gate
rejects a sell here. -/
def dataRsi10 : MarketData := ⟨94, List.replicate 10 94, 10⟩

/-- A flat snapshot at price 94 with neutral RSI 50: the risk gate accepts. -/
def dataRsi50 : MarketData := ⟨94, List.replicate 10 94, 50⟩

/-- A flat snapshot at price 50 with neutral RSI 50. -/
def dataBuy : MarketData := ⟨50, List.replicate 10 50, 50⟩

/-- Executor state holding one open position: entry 100, stop 95, amount 1. -/
def stData : ExecState := ⟨some ⟨100, 95, 1⟩, []⟩

/-- An exchange whose calls all succeed: balance 1000, market minimum 0.001,
every order filled at price 94 with the requested amount echoed. -/
def trivEx : Exchange :=
  ⟨.ok 1000, .ok (1/1000), fun _ amount => .ok ⟨1, 94, amount⟩⟩

/-- An exchange for the buy scenario: balance 1000, minimum 0.001, orders
filled at price 50. -/
def buyEx : Exchange :=
  ⟨.ok 1000, .ok (1/1000), fun _ amount => .ok ⟨7, 50, amount⟩⟩

/-- An advisory buy signal with confidence 0.9. -/
def buySignal : TradeSignal := ⟨"buy", 9/10, "ai", 1/20, 1/10⟩

/-- An advisory sell signal with confidence 0.8. -/
def sellSignal : TradeSignal := ⟨"sell", 8/10, "ai", 1/20, 1/10⟩

end Fixtures

/-- A fully-populated parsed advisory record recommending buy at confidence
0.9, as decoded from a well-formed response. -/
def buyRec : ParsedSignal :=
  ⟨some ("buy"), some (9/10), some ("ai"), some (1/20), some (1/10), some 2, some 4⟩

/-- A parsed advisory record whose confidence 1.5 lies outside [0,1]. -/
def conf15Rec : ParsedSignal :=
  ⟨some ("hold"), some (3/2), some ("ai"), some (1/20), some (1/10), some 2, some 4⟩

/-- A response text consisting of one empty JSON object. -/
def braceText : List Char := ['\x7b', '\x7d']

section Helpers

/-- The realized volatility of ten identical closes is zero. -/
lemma volatility10_replicate (c : ℝ) : volatility10 (List.replicate 10 c) = 0 := by
  have hlast : lastTen (List.replicate 10 c) = List.replicate 10 c := by
    simp [lastTen]
  have hmean : npMean (List.replicate 10 c) = c := by
    simp only [npMean, List.sum_replicate, List.length_replicate, nsmul_eq_mul]
    norm_num
  have hstd : npStd (List.replicate 10 c) = 0 := by
    simp only [npStd, hmean, List.map_replicate, sub_self]
    norm_num
  unfold volatility10
  rw [hlast, hstd, zero_div]

/-- The spiky closes have realized volatility 3/11. -/
lemma volatility10_cexCloses : volatility10 cexCloses = 3/11 := by
  have hlast : lastTen cexCloses = cexCloses := by
    simp [lastTen, cexCloses]
  have hmean : npMean cexCloses = 11/10 := by
    simp only [npMean, cexCloses]
    norm_num
  have hstd : npStd cexCloses = 3/10 := by
    unfold npStd
    rw [hmean]
    have hv : ((cexCloses.map fun x => (x - 11/10) ^ 2).sum / (cexCloses.length : ℝ))
        = (3/10) ^ 2 := by
      simp only [cexCloses, List.map_cons, List.map_nil, List.sum_cons, List.sum_nil,
        List.length_cons, List.length_nil]
      norm_num
    rw [hv, Real.sqrt_sq (by norm_num : (0:ℝ) ≤ 3/10)]
  unfold volatility10
  rw [hlast, hstd, hmean]
  norm_num

/-- The risk gate rejects a sell on the oversold snapshot. -/
lemma rmc_dataRsi10_sell : risk_management_check dataRsi10 ("sell") = false := by
  have hvol : volatility10 dataRsi10.closes = 0 := volatility10_replicate 94
  simp [risk_management_check, hvol, dataRsi10]
  norm_num

/-- The risk gate accepts a sell on the flat neutral snapshot. -/
lemma rmc_dataRsi50_sell : risk_management_check dataRsi50 ("sell") = true := by
  have hvol : volatility10 dataRsi50.closes = 0 := volatility10_replicate 94
  have hrsi : dataRsi50.rsi = 50 := rfl
  simp [risk_management_check, hvol, hrsi]
  norm_num

/-- The risk gate accepts a buy on the flat neutral snapshot at 50. -/
lemma rmc_dataBuy_buy : risk_management_check dataBuy ("buy") = true := by
  have hvol : volatility10 dataBuy.closes = 0 := volatility10_replicate 50
  have hrsi : dataBuy.rsi = 50 := rfl
  simp [risk_management_check, hvol, hrsi]
  norm_num

end Helpers

section PipelineLemmas

/-- A record that passes boolean validation has a whitelisted action and, when
a confidence is present, one inside the unit interval. -/
lemma validate_ok_elim (r : ParsedSignal) (h : validate_signal_ok r = true) :
    (r.action = some ("buy") ∨ r.action = some ("sell") ∨ r.action = some ("hold"))
    ∧ 0 ≤ r.confidence.getD 0 ∧ r.confidence.getD 0 ≤ 1 := by
  simp only [validate_signal_ok, Bool.and_eq_true, decide_eq_true_eq] at h
  obtain ⟨h1, h2, h3⟩ := h
  refine ⟨?_, h2, h3⟩
  cases ha : r.action with
  | none =>
    rw [ha] at h1
    exact absurd h1 (by decide)
  | some a =>
    rw [ha] at h1
    simp only [Option.getD_some, validActions, List.mem_cons,
      List.mem_singleton, List.not_mem_nil, or_false] at h1
    rcases h1 with h1 | h1 | h1
    · exact Or.inl (by rw [h1])
    · exact Or.inr (Or.inl (by rw [h1]))
    · exact Or.inr (Or.inr (by rw [h1]))

/-- Whatever record reaches the validation step, the finalised signal has a
whitelisted action and a present confidence inside the unit interval. -/
lemma finalize_signal_spec (r : ParsedSignal) :
    ((finalize_signal r).action = some ("buy")
      ∨ (finalize_signal r).action = some ("sell")
      ∨ (finalize_signal r).action = some ("hold"))
    ∧ ∃ c, (finalize_signal r).confidence = some c ∧ 0 ≤ c ∧ c ≤ 1 := by
  by_cases hv : validate_signal_ok r = true
  · have h := validate_ok_elim r hv
    cases hc : r.confidence with
    | none =>
      have hfin : finalize_signal r = default_signal := by
        simp [finalize_signal, hv, hc]
      rw [hfin]
      exact ⟨Or.inr (Or.inr rfl), ⟨3/10, rfl, by norm_num, by norm_num⟩⟩
    | some c =>
      have hfin : finalize_signal r = r := by
        simp [finalize_signal, hv, hc]
      rw [hfin]
      refine ⟨h.1, ⟨c, hc, ?_, ?_⟩⟩
      · have hb := h.2.1
        rw [hc] at hb
        simpa using hb
      · have hb := h.2.2
        rw [hc] at hb
        simpa using hb
  · have hv2 : validate_signal_ok r = false := by
      cases hval : validate_signal_ok r with
      | false => rfl
      | true => exact absurd hval hv
    have hfin : finalize_signal r = default_signal := by
      simp [finalize_signal, hv2, default_signal]
    rw [hfin]
    exact ⟨Or.inr (Or.inr rfl), ⟨3/10, rfl, by norm_num, by norm_num⟩⟩

end PipelineLemmas

/-- C1: for every decoder behaviour (success, missing JSON block, decode
error) and every advisory outcome (success, transport failure, timeout), the
public entry point get_ai_signal returns a signal whose action is buy, sell or
hold and whose confidence lies in [0,1]; the embedding is total, reflecting
that no exception escapes; and on advisory-call failure or timeout — or any
exception reaching the catch-all handler — the fixed fallback signal with
action hold and confidence 0.3 is returned. -/
theorem c1_get_ai_signal_safe (decode : List Char → Option ParsedSignal)
    (outcome : AdvisoryOutcome) :
    ((get_ai_signal decode outcome).action = some ("buy")
      ∨ (get_ai_signal decode outcome).action = some ("sell")
      ∨ (get_ai_signal decode outcome).action = some ("hold"))
    ∧ (∃ c, (get_ai_signal decode outcome).confidence = some c ∧ 0 ≤ c ∧ c ≤ 1)
    ∧ (outcome = AdvisoryOutcome.error →
        get_ai_signal decode outcome = default_signal
        ∧ default_signal.action = some ("hold")
        ∧ default_signal.confidence = some (3/10)) := by
  cases outcome with
  | error =>
    exact ⟨Or.inr (Or.inr rfl), ⟨3/10, rfl, by norm_num, by norm_num⟩,
      fun _ => ⟨rfl, rfl, rfl⟩⟩
  | ok raw =>
    have h := finalize_signal_spec (parse_response decode raw)
    exact ⟨h.1, h.2, fun hco => by simp at hco⟩

/-- Witness for C1: with a decoder that always fails and a timed-out advisory
call, the entry point returns exactly the fallback signal (hold, 0.3). -/
theorem c1_witness :
    get_ai_signal (fun _ => none) AdvisoryOutcome.error = default_signal
    ∧ default_signal.action = some ("hold")
    ∧ default_signal.confidence = some (3/10) :=
  (c1_get_ai_signal_safe (fun _ => none) AdvisoryOutcome.error).2.2 rfl

/-- C4: for every balance > 0, per-trade risk fraction in (0,1) and stop-loss
fraction in (0,1), calculate_position_size returns exactly
min (balance * risk / stop_loss) (balance * 0.10), is strictly positive, and
never exceeds a tenth of the balance. -/
theorem c4_position_size_cap (balance r s : ℝ) (hb : 0 < balance) (hr0 : 0 < r)
    (hr1 : r < 1) (hs0 : 0 < s) (hs1 : s < 1) :
    calculate_position_size balance r s = min (balance * r / s) (balance * (1/10))
    ∧ 0 < calculate_position_size balance r s
    ∧ calculate_position_size balance r s ≤ balance * (1/10) := by
  refine ⟨rfl, ?_, min_le_right _ _⟩
  exact lt_min (div_pos (mul_pos hb hr0) hs0) (by positivity)

/-- Witness for C4 on Scenario D of the spec: balance 1000, risk 0.02 and
stop-loss 0.05 give min 400 100 = 100, positive and within the cap. -/
theorem c4_witness :
    calculate_position_size 1000 (1/50) (1/20) = 100
    ∧ 0 < calculate_position_size 1000 (1/50) (1/20)
    ∧ calculate_position_size 1000 (1/50) (1/20) ≤ 1000 * (1/10) := by
  have h := c4_position_size_cap 1000 (1/50) (1/20) (by norm_num) (by norm_num)
    (by norm_num) (by norm_num) (by norm_num)
  refine ⟨?_, h.2.1, h.2.2⟩
  rw [h.1]
  norm_num [min_def]

/-- C5 counterexample: a snapshot whose 10-bar realized volatility is 3/11,
above the 0.05 threshold, on which the risk check with action hold still
returns true — refuting the claim that such volatility forces a rejection
regardless of the proposed action. -/
theorem c5_counterexample :
    1/20 < volatility10 cexData.closes
    ∧ risk_management_check cexData ("hold") = true := by
  constructor
  · have h : volatility10 cexData.closes = 3/11 := volatility10_cexCloses
    rw [h]
    norm_num
  · simp [risk_management_check]

/-- C5 (amended): the hold exemption takes precedence — the risk check with
action hold returns true on every snapshot; for every non-hold action, 10-bar
realized volatility above 0.05 forces the check to return false. -/
theorem c5_risk_gate (data : MarketData) (action : String) :
    risk_management_check data ("hold") = true
    ∧ (action ≠ "hold" → 1/20 < volatility10 data.closes →
        risk_management_check data action = false) := by
  constructor
  · simp [risk_management_check]
  · intro hne hvol
    unfold risk_management_check
    rw [if_neg hne, if_pos hvol]

/-- Witness for C5: on the spiky snapshot a sell is rejected while hold is
accepted. -/
theorem c5_witness :
    risk_management_check cexData ("sell") = false
    ∧ risk_management_check cexData ("hold") = true := by
  have h := c5_risk_gate cexData ("sell")
  refine ⟨h.2 (by decide) ?_, h.1⟩
  have hv : volatility10 cexData.closes = 3/11 := volatility10_cexCloses
  rw [hv]
  norm_num

section LegacyLemmas

lemma clamp01_nonneg (c : ℚ) : 0 ≤ clamp01 c := le_max_left 0 _

/-- Basic validation on a whitelisted action only clamps the confidence. -/
lemma validate_basic_valid (act : String) (conf : ℚ) (rsn : String) (slp tpp err vph : ℚ)
    (ha : act ∈ validActions) :
    Legacy.validate_basic ⟨act, conf, rsn, slp, tpp, err, vph⟩
      = ⟨act, clamp01 conf, rsn, slp, tpp, err, vph⟩ := by
  unfold Legacy.validate_basic clamp01
  rw [if_pos ha]
  by_cases hcc : 0 ≤ conf ∧ conf ≤ 1
  · rw [if_pos hcc, min_eq_right hcc.2, max_eq_right hcc.1]
  · rw [if_neg hcc]

/-- Basic validation on an invalid action coerces it to hold and clamps the
confidence. -/
lemma validate_basic_invalid (act : String) (conf : ℚ) (rsn : String) (slp tpp err vph : ℚ)
    (ha : act ∉ validActions) :
    Legacy.validate_basic ⟨act, conf, rsn, slp, tpp, err, vph⟩
      = ⟨"hold", clamp01 conf, rsn, slp, tpp, err, vph⟩ := by
  unfold Legacy.validate_basic clamp01
  rw [if_neg ha]
  by_cases hcc : 0 ≤ conf ∧ conf ≤ 1
  · rw [if_pos hcc, min_eq_right hcc.2, max_eq_right hcc.1]
  · rw [if_neg hcc]

end LegacyLemmas

/-- C6 counterexample: in the refactored pipeline actually wired into the
trading system, an advisory buy with confidence 0.9 is returned unchanged even
though the RSI analysis of the snapshot (RSI 94) reports overbought with
strength 0.8 > 0.7 — no override to hold, no halving of the confidence.  (The
pipeline consults the technical analysis only to build the advisory prompt,
never in validation.) -/
theorem c6_counterexample :
    (analyze_rsi 94).condition = "overbought"
    ∧ 7/10 < (analyze_rsi 94).strength
    ∧ get_ai_signal (fun _ => some buyRec) (AdvisoryOutcome.ok braceText) = buyRec
    ∧ buyRec.action = some ("buy")
    ∧ buyRec.confidence = some (9/10) := by
  have h94 : analyze_rsi 94 = ⟨94, "overbought", min 1 ((94 - 70)/30)⟩ := by
    unfold analyze_rsi
    rw [if_neg (by norm_num : ¬ (94:ℚ) < 30), if_pos (by norm_num : (70:ℚ) < 94)]
  have hparse : parse_response (fun _ => some buyRec) braceText = buyRec := by
    have hex : extractJson braceText = some braceText := by decide
    simp [parse_response, hex]
  have hvalid : validate_signal_ok buyRec = true := by
    have h1 : buyRec.action.getD ("") ∈ validActions := by simp [buyRec, validActions]
    have h2 : (0:ℚ) ≤ buyRec.confidence.getD 0 ∧ buyRec.confidence.getD 0 ≤ 1 := by
      constructor <;> · simp [buyRec]; norm_num
    simp [validate_signal_ok, h1, h2]
  have hfin : finalize_signal buyRec = buyRec := by
    unfold finalize_signal
    rw [hvalid]
    rfl
  refine ⟨by rw [h94], ?_, ?_, rfl, rfl⟩
  · rw [h94]
    show 7/10 < min 1 ((94 - 70)/30)
    norm_num [min_def]
  · show finalize_signal (parse_response (fun _ => some buyRec) braceText) = buyRec
    rw [hparse, hfin]

/-- C6 (amended): the RSI safety override lives in the legacy fusion path,
gpt_signal.py validate_signal — there an advisory buy under RSI overbought
with strength > 0.7 is forced to hold, its confidence (clamped into [0,1])
is multiplied by 0.5 (and by a further 0.7 only under high volatility, so it
never exceeds half the clamped advisory confidence), and the override note is
appended to the reason; symmetrically for a sell under RSI oversold with
strength > 0.7.  The refactored SignalGenerator pipeline applies no such
override. -/
theorem c6_legacy_rsi_override :
    (∀ (signal : Legacy.SignalRec) (ta : Legacy.TechAnalysis) (mc : Legacy.MarketContext),
      signal.action = "buy" → ta.rsi.condition = "overbought" → 7/10 < ta.rsi.strength →
        (Legacy.validate_signal signal ta mc).action = "hold"
        ∧ (Legacy.validate_signal signal ta mc).confidence ≤ clamp01 signal.confidence * (1/2)
        ∧ (mc.volatility ≠ "high" →
            (Legacy.validate_signal signal ta mc).confidence = clamp01 signal.confidence * (1/2))
        ∧ (Legacy.validate_signal signal ta mc).reason
            = signal.reason ++ " | 调整: RSI严重超买，避免买入")
    ∧ (∀ (signal : Legacy.SignalRec) (ta : Legacy.TechAnalysis) (mc : Legacy.MarketContext),
      signal.action = "sell" → ta.rsi.condition = "oversold" → 7/10 < ta.rsi.strength →
        (Legacy.validate_signal signal ta mc).action = "hold"
        ∧ (Legacy.validate_signal signal ta mc).confidence ≤ clamp01 signal.confidence * (1/2)
        ∧ (mc.volatility ≠ "high" →
            (Legacy.validate_signal signal ta mc).confidence = clamp01 signal.confidence * (1/2))
        ∧ (Legacy.validate_signal signal ta mc).reason
            = signal.reason ++ " | 调整: RSI严重超卖，避免卖出") := by
  constructor
  · intro signal ta mc ha hc hs
    obtain ⟨act, conf, rsn, slp, tpp, err, vph⟩ := signal
    have ha2 : act = "buy" := ha
    subst ha2
    have hb := validate_basic_valid ("buy") conf rsn slp tpp err vph (by decide)
    have hr : Legacy.validate_rsi ⟨"buy", clamp01 conf, rsn, slp, tpp, err, vph⟩ ta
        = ⟨"hold", clamp01 conf * (1/2), rsn ++ " | 调整: RSI严重超买，避免买入",
           slp, tpp, err, vph⟩ := by
      unfold Legacy.validate_rsi
      rw [if_pos rfl, if_pos ⟨hc, hs⟩]
    have hx : Legacy.validate_signal ⟨"buy", conf, rsn, slp, tpp, err, vph⟩ ta mc
        = Legacy.validate_volatility
            ⟨"hold", clamp01 conf * (1/2), rsn ++ " | 调整: RSI严重超买，避免买入",
             slp, tpp, err, vph⟩ mc := by
      unfold Legacy.validate_signal
      rw [hb, hr]
    rw [hx]
    unfold Legacy.validate_volatility
    by_cases hv : mc.volatility = "high"
    · rw [if_pos hv]
      refine ⟨rfl, ?_, fun hne => absurd hv hne, rfl⟩
      have h0 : 0 ≤ clamp01 conf * (1/2) :=
        mul_nonneg (clamp01_nonneg conf) (by norm_num)
      calc clamp01 conf * (1/2) * (7/10) ≤ clamp01 conf * (1/2) * 1 := by
            exact mul_le_mul_of_nonneg_left (by norm_num) h0
        _ = clamp01 conf * (1/2) := by ring
    · rw [if_neg hv]
      exact ⟨rfl, le_refl _, fun _ => rfl, rfl⟩
  · intro signal ta mc ha hc hs
    obtain ⟨act, conf, rsn, slp, tpp, err, vph⟩ := signal
    have ha2 : act = "sell" := ha
    subst ha2
    have hb := validate_basic_valid ("sell") conf rsn slp tpp err vph (by decide)
    have hr : Legacy.validate_rsi ⟨"sell", clamp01 conf, rsn, slp, tpp, err, vph⟩ ta
        = ⟨"hold", clamp01 conf * (1/2), rsn ++ " | 调整: RSI严重超卖，避免卖出",
           slp, tpp, err, vph⟩ := by
      unfold Legacy.validate_rsi
      rw [if_neg (by decide : ¬ ("sell" : String) = "buy"), if_pos rfl, if_pos ⟨hc, hs⟩]
    have hx : Legacy.validate_signal ⟨"sell", conf, rsn, slp, tpp, err, vph⟩ ta mc
        = Legacy.validate_volatility
            ⟨"hold", clamp01 conf * (1/2), rsn ++ " | 调整: RSI严重超卖，避免卖出",
             slp, tpp, err, vph⟩ mc := by
      unfold Legacy.validate_signal
      rw [hb, hr]
    rw [hx]
    unfold Legacy.validate_volatility
    by_cases hv : mc.volatility = "high"
    · rw [if_pos hv]
      refine ⟨rfl, ?_, fun hne => absurd hv hne, rfl⟩
      have h0 : 0 ≤ clamp01 conf * (1/2) :=
        mul_nonneg (clamp01_nonneg conf) (by norm_num)
      calc clamp01 conf * (1/2) * (7/10) ≤ clamp01 conf * (1/2) * 1 := by
            exact mul_le_mul_of_nonneg_left (by norm_num) h0
        _ = clamp01 conf * (1/2) := by ring
    · rw [if_neg hv]
      exact ⟨rfl, le_refl _, fun _ => rfl, rfl⟩

/-- Witness for C6: an advisory buy at confidence 0.9 under overbought
strength 0.8 and low volatility comes out of the legacy validation as hold
with confidence exactly 0.45 and the note appended. -/
theorem c6_witness :
    (Legacy.validate_signal ⟨"buy", 9/10, "ai", 1/20, 1/10, 2, 4⟩
        ⟨⟨94, "overbought", 4/5⟩⟩ ⟨"low"⟩).action = "hold"
    ∧ (Legacy.validate_signal ⟨"buy", 9/10, "ai", 1/20, 1/10, 2, 4⟩
        ⟨⟨94, "overbought", 4/5⟩⟩ ⟨"low"⟩).confidence = 9/20
    ∧ (Legacy.validate_signal ⟨"buy", 9/10, "ai", 1/20, 1/10, 2, 4⟩
        ⟨⟨94, "overbought", 4/5⟩⟩ ⟨"low"⟩).reason
        = "ai" ++ " | 调整: RSI严重超买，避免买入" := by
  have h := c6_legacy_rsi_override.1 ⟨"buy", 9/10, "ai", 1/20, 1/10, 2, 4⟩
    ⟨⟨94, "overbought", 4/5⟩⟩ ⟨"low"⟩ rfl rfl (by norm_num)
  refine ⟨h.1, ?_, h.2.2.2⟩
  have he := h.2.2.1 (by decide)
  rw [he]
  show clamp01 (9/10) * (1/2) = 9/20
  unfold clamp01
  norm_num [min_def, max_def]

/-- C7 counterexample: a parsed record with confidence 1.5 is not clamped to
1.0 with its other fields preserved; the refactored pipeline replaces it
wholesale with the default signal, so the returned confidence is 0.3 and the
reason field is not the parsed one. -/
theorem c7_counterexample :
    get_ai_signal (fun _ => some conf15Rec) (AdvisoryOutcome.ok braceText) = default_signal
    ∧ default_signal.confidence = some (3/10)
    ∧ ¬ (get_ai_signal (fun _ => some conf15Rec) (AdvisoryOutcome.ok braceText)).confidence
        = some 1
    ∧ ¬ (get_ai_signal (fun _ => some conf15Rec) (AdvisoryOutcome.ok braceText)).reason
        = conf15Rec.reason := by
  have hparse : parse_response (fun _ => some conf15Rec) braceText = conf15Rec := by
    have hex : extractJson braceText = some braceText := by decide
    simp [parse_response, hex]
  have hvalid : validate_signal_ok conf15Rec = false := by
    have h2 : ¬ ((0:ℚ) ≤ conf15Rec.confidence.getD 0 ∧ conf15Rec.confidence.getD 0 ≤ 1) := by
      simp only [conf15Rec, Option.getD_some]
      norm_num
    simp [validate_signal_ok, h2]
  have hga : get_ai_signal (fun _ => some conf15Rec) (AdvisoryOutcome.ok braceText)
      = default_signal := by
    show finalize_signal (parse_response (fun _ => some conf15Rec) braceText) = default_signal
    rw [hparse]
    unfold finalize_signal
    rw [hvalid]
    rfl
  refine ⟨hga, rfl, ?_, ?_⟩
  · rw [hga]
    show ¬ some ((3:ℚ)/10) = some 1
    simp
    norm_num
  · rw [hga]
    show ¬ some ("系统备用信号：数据不足或分析异常") = some ("ai")
    decide

/-- C7 (amended): in the refactored pipeline a parsed record failing
validation (confidence outside [0,1] or action outside buy/sell/hold) is
replaced wholesale by the fixed default signal rather than clamped; the
in-place clamp-and-coerce behaviour lives only in the legacy validate_signal,
where a record with an invalid action is coerced to hold with its confidence
clamped into [0,1] and, when the volatility context is not high, every other
field preserved. -/
theorem c7_validation_replaces :
    (∀ r : ParsedSignal, validate_signal_ok r = false → finalize_signal r = default_signal)
    ∧ (∀ (signal : Legacy.SignalRec) (ta : Legacy.TechAnalysis) (mc : Legacy.MarketContext),
        signal.action ∉ validActions → mc.volatility ≠ "high" →
          Legacy.validate_signal signal ta mc
            = { signal with action := "hold", confidence := clamp01 signal.confidence }) := by
  constructor
  · intro r hval
    simp [finalize_signal, hval, default_signal]
  · intro signal ta mc ha hv
    obtain ⟨act, conf, rsn, slp, tpp, err, vph⟩ := signal
    have ha2 : act ∉ validActions := ha
    have hb := validate_basic_invalid act conf rsn slp tpp err vph ha2
    unfold Legacy.validate_signal
    rw [hb]
    have hr : Legacy.validate_rsi ⟨"hold", clamp01 conf, rsn, slp, tpp, err, vph⟩ ta
        = ⟨"hold", clamp01 conf, rsn, slp, tpp, err, vph⟩ := by
      unfold Legacy.validate_rsi
      rw [if_neg (by decide : ¬ ("hold" : String) = "buy"),
        if_neg (by decide : ¬ ("hold" : String) = "sell")]
    rw [hr]
    unfold Legacy.validate_volatility
    rw [if_neg hv]

/-- Witness for C7: a record with confidence 1.5 fails validation and the
pipeline returns the default signal; and the legacy validation of an unknown
action with confidence 1.5 yields hold with confidence clamped to 1 and the
remaining fields intact. -/
theorem c7_witness :
    finalize_signal conf15Rec = default_signal
    ∧ Legacy.validate_signal ⟨"maybe", 3/2, "ai", 1/20, 1/10, 2, 4⟩
        ⟨⟨50, "neutral", 1/2⟩⟩ ⟨"low"⟩ = ⟨"hold", 1, "ai", 1/20, 1/10, 2, 4⟩ := by
  constructor
  · refine c7_validation_replaces.1 conf15Rec ?_
    have h2 : ¬ ((0:ℚ) ≤ conf15Rec.confidence.getD 0 ∧ conf15Rec.confidence.getD 0 ≤ 1) := by
      simp only [conf15Rec, Option.getD_some]
      norm_num
    simp [validate_signal_ok, h2]
  · have h := c7_validation_replaces.2 ⟨"maybe", 3/2, "ai", 1/20, 1/10, 2, 4⟩
      ⟨⟨50, "neutral", 1/2⟩⟩ ⟨"low"⟩ (by decide) (by decide)
    rw [h]
    have hcl : clamp01 (3/2) = 1 := by
      unfold clamp01
      norm_num [min_def, max_def]
    show (⟨"hold", clamp01 (3/2), "ai", 1/20, 1/10, 2, 4⟩ : Legacy.SignalRec)
        = ⟨"hold", 1, "ai", 1/20, 1/10, 2, 4⟩
    rw [hcl]

section ExecutorLemmas

/-- A failed risk check returns immediately with no state change, no order
request and no exception. -/
lemma exec_reject (ex : Exchange) (signal : TradeSignal) (data : MarketData)
    (st : ExecState) (hrisk : risk_management_check data signal.action = false) :
    execute_trade_with_risk_management ex signal data st = ⟨st, [], false⟩ := by
  unfold execute_trade_with_risk_management
  rw [hrisk, if_pos rfl]

/-- The successful sell path: order placed, log entry appended, position
cleared, and the call raises (line 136 subscripts the cleared position). -/
lemma exec_sell_path (ex : Exchange) (signal : TradeSignal) (data : MarketData)
    (st : ExecState) (position : Position) (b : ℝ) (order : Order)
    (hpos : st.position = some position) (ha : signal.action = "sell")
    (hrisk : risk_management_check data ("sell") = true)
    (hb : ex.fetchBalance = .ok b)
    (horder : ex.createOrder ("sell") position.amount = .ok order) :
    execute_trade_with_risk_management ex signal data st =
      ⟨⟨none, st.trade_log ++ [mkLogEntry signal order ("SELL_EXECUTED")]⟩,
       [(("sell"), position.amount)], true⟩ := by
  simp [execute_trade_with_risk_management, ha, hrisk, hb, hpos, horder]

/-- The successful buy path: the stored position plays no role; the order is
sized from the balance, raised to the market minimum, placed, logged, and the
position slot is overwritten. -/
lemma exec_buy_path (ex : Exchange) (signal : TradeSignal) (data : MarketData)
    (st : ExecState) (b minA : ℝ) (order : Order)
    (ha : signal.action = "buy")
    (hrisk : risk_management_check data ("buy") = true)
    (hb : ex.fetchBalance = .ok b) (hb10 : 10 < b)
    (hmin : ex.minAmount = .ok minA)
    (horder : ex.createOrder ("buy")
      (max (calculate_position_size b (1/50) signal.stop_loss_pct / data.price) minA)
      = .ok order) :
    execute_trade_with_risk_management ex signal data st =
      ⟨⟨some ⟨data.price, data.price * (1 - signal.stop_loss_pct),
          max (calculate_position_size b (1/50) signal.stop_loss_pct / data.price) minA⟩,
        st.trade_log ++ [mkLogEntry signal order ("BUY_EXECUTED")]⟩,
       [(("buy"),
         max (calculate_position_size b (1/50) signal.stop_loss_pct / data.price) minA)],
       false⟩ := by
  simp only [one_div] at horder
  simp [execute_trade_with_risk_management, ha, hrisk, hb, hb10, hmin, horder]

/-- The stop-loss monitor leaves everything unchanged when the risk gate
rejects the synthetic sell. -/
lemma monitor_reject (ex : Exchange) (data : MarketData) (st : ExecState)
    (position : Position)
    (hpos : st.position = some position) (hple : data.price ≤ position.stop_loss)
    (hrisk : risk_management_check data ("sell") = false) :
    monitor_stop_loss ex data st = (st, []) := by
  unfold monitor_stop_loss
  simp only [hpos]
  rw [if_pos hple]
  unfold execute_stop_loss
  rw [exec_reject ex stop_loss_signal data st hrisk]

end ExecutorLemmas

/-- C2 counterexample: with a position already open (entry 100, stop 95,
amount 1), a buy signal that passes the risk gate is not ignored — the
executor places a buy order and overwrites the stored position with one
recorded at the new snapshot price 50. -/
theorem c2_counterexample :
    stData.position = some ⟨100, 95, 1⟩
    ∧ (execute_trade_with_risk_management buyEx buySignal dataBuy stData).state.position
        = some ⟨50, 50 * (1 - 1/20), 2⟩
    ∧ ¬ (execute_trade_with_risk_management buyEx buySignal dataBuy stData).state.position
        = stData.position
    ∧ (execute_trade_with_risk_management buyEx buySignal dataBuy stData).orders
        = [(("buy"), 2)]
    ∧ (execute_trade_with_risk_management buyEx buySignal dataBuy stData).state.trade_log
        = [mkLogEntry buySignal ⟨7, 50, 2⟩ ("BUY_EXECUTED")] := by
  have hamt : max (calculate_position_size 1000 (1/50) buySignal.stop_loss_pct
      / dataBuy.price) ((1:ℝ)/1000) = 2 := by
    show max (calculate_position_size 1000 (1/50) (1/20) / 50) ((1:ℝ)/1000) = 2
    unfold calculate_position_size
    norm_num [min_def, max_def]
  have h := exec_buy_path buyEx buySignal dataBuy stData 1000 (1/1000)
    ⟨7, 50, max (calculate_position_size 1000 (1/50) buySignal.stop_loss_pct
      / dataBuy.price) ((1:ℝ)/1000)⟩
    rfl rmc_dataBuy_buy rfl (by norm_num) rfl rfl
  rw [hamt] at h
  refine ⟨rfl, ?_, ?_, ?_, ?_⟩
  · rw [h]
    rfl
  · rw [h]
    show ¬ some (⟨dataBuy.price, dataBuy.price * (1 - buySignal.stop_loss_pct), 2⟩
        : Position) = some ⟨100, 95, 1⟩
    simp only [Option.some_inj, Position.mk.injEq]
    intro hcon
    have : (50:ℝ) = 100 := hcon.1
    norm_num at this
  · rw [h]
  · rw [h]
    rfl

/-- C2 (amended): a buy while a position is open is processed exactly as if
flat — when the risk gate passes, the balance exceeds 10 and the exchange
calls succeed, a buy order is placed and the single optional position slot is
overwritten with a position recorded at the new snapshot price, with one
BUY_EXECUTED entry appended; at most one position ever exists because the
executor state holds a single optional slot, but buys are not ignored while
open. -/
theorem c2_buy_ignores_open_position (ex : Exchange) (signal : TradeSignal)
    (data : MarketData) (st : ExecState) (p0 : Position) (b minA : ℝ) (order : Order)
    (hpos : st.position = some p0) (ha : signal.action = "buy")
    (hrisk : risk_management_check data ("buy") = true)
    (hb : ex.fetchBalance = .ok b) (hb10 : 10 < b)
    (hmin : ex.minAmount = .ok minA)
    (horder : ex.createOrder ("buy")
      (max (calculate_position_size b (1/50) signal.stop_loss_pct / data.price) minA)
      = .ok order) :
    (execute_trade_with_risk_management ex signal data st).state.position
      = some ⟨data.price, data.price * (1 - signal.stop_loss_pct),
          max (calculate_position_size b (1/50) signal.stop_loss_pct / data.price) minA⟩
    ∧ (execute_trade_with_risk_management ex signal data st).orders
      = [(("buy"),
          max (calculate_position_size b (1/50) signal.stop_loss_pct / data.price) minA)]
    ∧ (execute_trade_with_risk_management ex signal data st).state.trade_log
      = st.trade_log ++ [mkLogEntry signal order ("BUY_EXECUTED")] := by
  have h := exec_buy_path ex signal data st b minA order ha hrisk hb hb10 hmin horder
  rw [h]
  exact ⟨rfl, rfl, rfl⟩

/-- Witness for C2: the concrete open-position state, buy signal and
all-successful exchange produce the overwritten position at entry 50 with
stop 47.5 and amount 2. -/
theorem c2_witness :
    (execute_trade_with_risk_management buyEx buySignal dataBuy stData).state.position
      = some ⟨50, 50 * (1 - 1/20), 2⟩
    ∧ (execute_trade_with_risk_management buyEx buySignal dataBuy stData).orders
      = [(("buy"), 2)] := by
  have hamt : max (calculate_position_size 1000 (1/50) buySignal.stop_loss_pct
      / dataBuy.price) ((1:ℝ)/1000) = 2 := by
    show max (calculate_position_size 1000 (1/50) (1/20) / 50) ((1:ℝ)/1000) = 2
    unfold calculate_position_size
    norm_num [min_def, max_def]
  have h := c2_buy_ignores_open_position buyEx buySignal dataBuy stData ⟨100, 95, 1⟩
    1000 (1/1000)
    ⟨7, 50, max (calculate_position_size 1000 (1/50) buySignal.stop_loss_pct
      / dataBuy.price) ((1:ℝ)/1000)⟩
    rfl rfl rmc_dataBuy_buy rfl (by norm_num) rfl rfl
  rw [hamt] at h
  exact ⟨h.1, h.2.1⟩

/-- C3 counterexample: a cycle with an open position (entry 100, stop 95) and
snapshot price 94 ≤ 95, but RSI 10 < 20, so the risk gate rejects the
synthetic sell: the monitor leaves the position in place and appends no trade
log entry — the forced liquidation does not happen on every stop-loss cycle. -/
theorem c3_counterexample :
    stData.position = some ⟨100, 95, 1⟩
    ∧ dataRsi10.price ≤ (95:ℝ)
    ∧ monitor_stop_loss trivEx dataRsi10 stData = (stData, [])
    ∧ stData.trade_log = [] := by
  refine ⟨rfl, show (94:ℝ) ≤ 95 by norm_num, ?_, rfl⟩
  exact monitor_reject trivEx dataRsi10 stData ⟨100, 95, 1⟩ rfl
    (show (94:ℝ) ≤ 95 by norm_num) rmc_dataRsi10_sell

/-- C3 (amended): in a cycle with an open position and snapshot price at or
below the recorded stop-loss, the orchestrator runs the forced sell with the
synthetic signal (action sell, confidence 1.0); provided the risk gate accepts
the synthetic sell and the exchange calls succeed, the position becomes absent
and exactly one SELL_EXECUTED trade-log entry is appended. -/
theorem c3_stop_loss_forced_sell (ex : Exchange) (data : MarketData) (st : ExecState)
    (position : Position) (b : ℝ) (order : Order)
    (hpos : st.position = some position)
    (hple : data.price ≤ position.stop_loss)
    (hrisk : risk_management_check data ("sell") = true)
    (hb : ex.fetchBalance = .ok b)
    (horder : ex.createOrder ("sell") position.amount = .ok order) :
    stop_loss_signal.action = "sell" ∧ stop_loss_signal.confidence = 1
    ∧ monitor_stop_loss ex data st
      = (⟨none, st.trade_log ++ [mkLogEntry stop_loss_signal order ("SELL_EXECUTED")]⟩,
         [(("sell"), position.amount)]) := by
  refine ⟨rfl, rfl, ?_⟩
  unfold monitor_stop_loss
  simp only [hpos]
  rw [if_pos hple]
  unfold execute_stop_loss
  rw [exec_sell_path ex stop_loss_signal data st position b order hpos rfl hrisk hb horder]

/-- Witness for C3: on the flat neutral snapshot at 94 with stop 95, the
monitor clears the position and appends exactly the synthetic SELL_EXECUTED
entry. -/
theorem c3_witness :
    monitor_stop_loss trivEx dataRsi50 stData
      = (⟨none, [mkLogEntry stop_loss_signal ⟨1, 94, 1⟩ ("SELL_EXECUTED")]⟩,
         [(("sell"), 1)])
    ∧ stop_loss_signal.confidence = 1 := by
  have h := c3_stop_loss_forced_sell trivEx dataRsi50 stData ⟨100, 95, 1⟩ 1000 ⟨1, 94, 1⟩
    rfl (show (94:ℝ) ≤ 95 by norm_num) rmc_dataRsi50_sell rfl rfl
  exact ⟨h.2.2, h.2.1⟩

/-- C9: a completed sell — sell signal accepted by the risk gate, a position
open, the balance fetch and the sell order succeeding — appends the
SELL_EXECUTED entry, clears the position, and then raises to its caller,
because the post-clear success log line subscripts the cleared position. -/
theorem c9_sell_completes_then_raises (ex : Exchange) (signal : TradeSignal)
    (data : MarketData) (st : ExecState) (position : Position) (b : ℝ) (order : Order)
    (hpos : st.position = some position) (ha : signal.action = "sell")
    (hrisk : risk_management_check data ("sell") = true)
    (hb : ex.fetchBalance = .ok b)
    (horder : ex.createOrder ("sell") position.amount = .ok order) :
    execute_trade_with_risk_management ex signal data st =
      ⟨⟨none, st.trade_log ++ [mkLogEntry signal order ("SELL_EXECUTED")]⟩,
       [(("sell"), position.amount)], true⟩ :=
  exec_sell_path ex signal data st position b order hpos ha hrisk hb horder

/-- Witness for C9: the concrete sell on the flat neutral snapshot ends with
the position cleared, one SELL_EXECUTED entry, and the raised flag set. -/
theorem c9_witness :
    execute_trade_with_risk_management trivEx sellSignal dataRsi50 stData =
      ⟨⟨none, [mkLogEntry sellSignal ⟨1, 94, 1⟩ ("SELL_EXECUTED")]⟩,
       [(("sell"), 1)], true⟩ := by
  have h := c9_sell_completes_then_raises trivEx sellSignal dataRsi50 stData
    ⟨100, 95, 1⟩ 1000 ⟨1, 94, 1⟩ rfl rfl rmc_dataRsi50_sell rfl rfl
  exact h

/-- C10: the stop-loss forced sell does not bypass the risk gate — in a cycle
where the stop-loss condition holds but the gate rejects the synthetic sell
(10-bar volatility above 0.05, or RSI below 20), no order request is made, the
open position is untouched and no trade-log entry is appended. -/
theorem c10_stop_loss_respects_gate (ex : Exchange) (data : MarketData)
    (st : ExecState) (position : Position)
    (hpos : st.position = some position) (hple : data.price ≤ position.stop_loss)
    (hrej : 1/20 < volatility10 data.closes ∨ data.rsi < 20) :
    monitor_stop_loss ex data st = (st, []) := by
  have hrisk : risk_management_check data ("sell") = false := by
    unfold risk_management_check
    rw [if_neg (by decide : ¬ ("sell" : String) = "hold")]
    rcases hrej with hv | hr
    · rw [if_pos hv]
    · by_cases hv2 : 1/20 < volatility10 data.closes
      · rw [if_pos hv2]
      · rw [if_neg hv2,
          if_neg (by simp : ¬ (("sell" : String) = "buy" ∧ 80 < data.rsi)),
          if_pos ⟨rfl, hr⟩]
  exact monitor_reject ex data st position hpos hple hrisk

/-- Witness for C10: with the oversold snapshot (RSI 10) and stop-loss price
condition met, the monitor changes nothing. -/
theorem c10_witness :
    monitor_stop_loss trivEx dataRsi10 stData = (stData, [])
    ∧ stData.position = some ⟨100, 95, 1⟩ := by
  refine ⟨?_, rfl⟩
  exact c10_stop_loss_respects_gate trivEx dataRsi10 stData ⟨100, 95, 1⟩ rfl
    (show (94:ℝ) ≤ 95 by norm_num) (Or.inr (show (10:ℝ) < 20 by norm_num))

section MacdLemmas

lemma ewmAux_length (a : ℚ) (xs : List ℚ) :
    ∀ num den : ℚ, (ewmAux a xs num den).length = xs.length := by
  induction xs with
  | nil => intro num den; rfl
  | cons x xs ih => intro num den; simp [ewmAux, ih]

lemma ewm_length (a : ℚ) (xs : List ℚ) : (ewm a xs).length = xs.length :=
  ewmAux_length a xs 0 0

lemma macd_line_length (closes : List ℚ) : (macd_line closes).length = closes.length := by
  simp [macd_line, ewm_length]

lemma signal_line_length (closes : List ℚ) :
    (signal_line closes).length = closes.length := by
  simp [signal_line, ewm_length, macd_line_length]

end MacdLemmas

/-- C8: for every close series of at least two points (so the MACD line and
signal line each have at least two points), the crossover detection reports
golden exactly when the MACD line was at or below the signal line at the
previous point and is strictly above it at the latest point, death exactly
when it was at or above and is now strictly below, and none exactly when
neither crossing happened. -/
theorem c8_macd_crossover (closes : List ℚ) (h2 : 2 ≤ closes.length) :
    ((analyze_macd closes).crossover = "golden" ↔
      prevD (macd_line closes) ≤ prevD (signal_line closes)
        ∧ lastD (signal_line closes) < lastD (macd_line closes))
    ∧ ((analyze_macd closes).crossover = "death" ↔
      prevD (signal_line closes) ≤ prevD (macd_line closes)
        ∧ lastD (macd_line closes) < lastD (signal_line closes))
    ∧ ((analyze_macd closes).crossover = "none" ↔
      ¬ (prevD (macd_line closes) ≤ prevD (signal_line closes)
          ∧ lastD (signal_line closes) < lastD (macd_line closes))
        ∧ ¬ (prevD (signal_line closes) ≤ prevD (macd_line closes)
          ∧ lastD (macd_line closes) < lastD (signal_line closes))) := by
  have hcross : (analyze_macd closes).crossover =
      (if 2 ≤ (macd_line closes).length ∧ 2 ≤ (signal_line closes).length then
        if prevD (macd_line closes) ≤ prevD (signal_line closes)
            ∧ lastD (signal_line closes) < lastD (macd_line closes) then "golden"
        else if prevD (signal_line closes) ≤ prevD (macd_line closes)
            ∧ lastD (macd_line closes) < lastD (signal_line closes) then "death"
        else "none"
      else "none") := rfl
  rw [hcross,
    if_pos ⟨by rw [macd_line_length]; exact h2, by rw [signal_line_length]; exact h2⟩]
  by_cases hg : prevD (macd_line closes) ≤ prevD (signal_line closes)
      ∧ lastD (signal_line closes) < lastD (macd_line closes)
  · rw [if_pos hg]
    refine ⟨⟨fun _ => hg, fun _ => rfl⟩, ?_, ?_⟩
    · constructor
      · intro hx
        exact absurd hx (by decide)
      · intro hd
        exact absurd hd.2 (lt_asymm hg.2)
    · constructor
      · intro hx
        exact absurd hx (by decide)
      · intro hnd
        exact absurd hg hnd.1
  · rw [if_neg hg]
    by_cases hd : prevD (signal_line closes) ≤ prevD (macd_line closes)
        ∧ lastD (macd_line closes) < lastD (signal_line closes)
    · rw [if_pos hd]
      refine ⟨?_, ⟨fun _ => hd, fun _ => rfl⟩, ?_⟩
      · constructor
        · intro hx
          exact absurd hx (by decide)
        · intro hgc
          exact absurd hgc hg
      · constructor
        · intro hx
          exact absurd hx (by decide)
        · intro hnd
          exact absurd hd hnd.2
    · rw [if_neg hd]
      refine ⟨?_, ?_, ⟨fun _ => ⟨hg, hd⟩, fun _ => rfl⟩⟩
      · constructor
        · intro hx
          exact absurd hx (by decide)
        · intro hgc
          exact absurd hgc hg
      · constructor
        · intro hx
          exact absurd hx (by decide)
        · intro hdc
          exact absurd hdc hd

/-- Witness for C8: on the two-point series 1, 2 the MACD line rises from 0 to
7/312 while the signal line reaches only 35/2808, so a golden cross is
reported, in agreement with the two-point characterisation. -/
theorem c8_witness :
    2 ≤ ([1, 2] : List ℚ).length
    ∧ (analyze_macd [1, 2]).crossover = "golden" := by
  have h2 : 2 ≤ ([1, 2] : List ℚ).length := by simp
  have hml : macd_line [1, 2] = [0, 7/312] := by
    have h1 : ewm (2/13) [1, 2] = [1, 37/24] := by
      show ewmAux (2/13) [1, 2] 0 0 = [1, 37/24]
      norm_num [ewmAux]
    have h2e : ewm (2/27) [1, 2] = [1, 79/52] := by
      show ewmAux (2/27) [1, 2] 0 0 = [1, 79/52]
      norm_num [ewmAux]
    rw [macd_line, h1, h2e]
    norm_num [List.zipWith]
  have hsl : signal_line [1, 2] = [0, 35/2808] := by
    rw [signal_line, hml]
    show ewmAux (1/5) [0, 7/312] 0 0 = [0, 35/2808]
    norm_num [ewmAux]
  refine ⟨h2, ?_⟩
  refine ((c8_macd_crossover [1, 2] h2).1).mpr ?_
  rw [hml, hsl]
  constructor
  · show prevD [0, 7/312] ≤ prevD [0, 35/2808]
    norm_num [prevD]
  · show lastD [0, 35/2808] < lastD [0, 7/312]
    norm_num [lastD]

end AiTrade
